import Mathlib

/-!
Verification of the VEP sender's job scheduling and execution engine.

The definitions below are a shallow embedding of the TypeScript source:

* `src/src/app.service.ts` — `JobTimeSchedulerService` (the first, current
  version in that file): `filterJobsForCurrentTime`, `executeJob`,
  `processJobExecution`, `sendMessageToUser`, `getTemplateForJob`,
  `getDefaultTemplate`, `generateMessage`, `replaceTemplateVariables`,
  `appendAdditionalMessages`.
* `src/unnamed/part_016` — `WhatsappService`: `checkCircuitBreaker`,
  `recordSuccess`, `recordFailure`, `checkRateLimit`, `sendMessageVep`,
  `sendMultipleFiles`, `sendMultipleDocuments`.

External collaborators (the Supabase persistence layer, DigitalOcean object
storage, the Baileys socket) are modelled as oracles in an environment
record: each call site keeps its position in the control flow, and the
oracle supplies the outcome the collaborator would have produced.  Mutable
instance state (template cache, circuit breaker counters, rate limiter
timestamps) is threaded explicitly.  Timestamps are integers (milliseconds);
awaited sleeps do not advance the model clock.  I/O is recorded as an
explicit effect trace so that "performs no work" and "never reaches the
network" are provable statements.

JavaScript string semantics (`String.prototype.replace` with a global
literal regex, `trim`, `includes`, truthiness of `null`/`""`) are modelled
by executable char-list functions defined here, because the corresponding
core Lean functions do not reduce inside the kernel.
-/

deriving instance DecidableEq for Except

namespace VepsSender

/-! ## JavaScript string primitives -/

/-- Whitespace as relevant to `String.prototype.trim` for the templates in
this code base (space, tab, newline, carriage return). -/
def isJsWhitespace (c : Char) : Bool :=
  c = ' ' ∨ c = '\t' ∨ c = '\n' ∨ c = '\r'

/-- `String.prototype.trim`. -/
def jsTrim (s : String) : String :=
  String.mk (((s.data.dropWhile isJsWhitespace).reverse.dropWhile isJsWhitespace).reverse)

/-- One left-to-right, non-overlapping pass of
`String.prototype.replace(new RegExp(escapedLiteral, 'g'), rep)` over a char
list.  The fuel is the length of the subject, which suffices because every
step consumes at least one character of the subject. -/
def replaceFuel (pat rep : List Char) : Nat → List Char → List Char
  | _, [] => []
  | 0, s => s
  | fuel + 1, c :: rest =>
    if pat ≠ [] ∧ pat.isPrefixOf (c :: rest) then
      rep ++ replaceFuel pat rep fuel ((c :: rest).drop pat.length)
    else
      c :: replaceFuel pat rep fuel rest

/-- `subject.replace(new RegExp(escapedLiteral, 'g'), rep)`. -/
def jsReplaceAll (subject pat rep : String) : String :=
  String.mk (replaceFuel pat.data rep.data subject.data.length subject.data)

/-- `subject.includes(pat)` for a non-empty literal `pat`. -/
def strScan (pat : List Char) : List Char → Bool
  | [] => pat.isEmpty
  | c :: rest => pat.isPrefixOf (c :: rest) || strScan pat rest

/-- `String.prototype.includes` with a literal pattern. -/
def jsIncludes (subject pat : String) : Bool :=
  strScan pat.data subject.data

/-- `Array.prototype.join(sep)`. -/
def joinSep (sep : String) : List String → String
  | [] => ""
  | [x] => x
  | x :: y :: rest => x ++ sep ++ joinSep sep (y :: rest)

/-- JavaScript `a || b` where `a` is a nullable string (`null` and `""` are
falsy). -/
def jsOrS (a : Option String) (b : String) : String :=
  match a with
  | some s => if s = "" then b else s
  | none => b

/-- JavaScript truthiness of a nullable string. -/
def truthyOpt (a : Option String) : Bool :=
  match a with
  | some s => s ≠ ""
  | none => false

/-- String interpolation `${x}` of a nullable string renders `null` as the
literal text `"null"`. -/
def interpOpt (a : Option String) : String :=
  match a with
  | some s => s
  | none => "null"

/-! ## Data model (`job_time` rows, `vep_users`, statuses) -/

/-- `job_time.status`. -/
inductive JobStatus
  | PENDING
  | RUNNING
  | FINISHED
  | ERROR
deriving DecidableEq, Repr, BEq

/-- The observable fields of a luxon `DateTime` in the fixed reference zone
`America/Argentina/Buenos_Aires` that `filterJobsForCurrentTime` reads:
the calendar fields, the minute of the hour, and the absolute instant in
milliseconds (used by `now.diff(jobTime, 'minutes')`, which is exact in
milliseconds). -/
structure BADateTime where
  year : Int
  month : Nat
  day : Nat
  minute : Nat
  epochMs : Int
deriving DecidableEq, Repr, BEq

/-- A secondary tax-id/name pair riding along with a primary recipient
(`joined_users` entries). -/
structure JoinedUser where
  name : String
  cuit : Option String
deriving DecidableEq, Repr, BEq

/-- A recipient embedded in `job_time.users`. -/
structure VepUser where
  id : Nat
  real_name : String
  alter_name : Option String
  mobile_number : String
  cuit : Option String
  is_group : Bool
  joined_users : List JoinedUser
  need_papers : Bool
  need_z : Bool
  need_compra : Bool
  need_auditoria : Bool
  sent : Option Bool
deriving DecidableEq, Repr, BEq

/-- A `job_time` row.  `execution_time` holds the result of
`DateTime.fromISO(job.execution_time, { zone })`: `none` stands for a
missing value or a string that does not parse (an invalid `DateTime`
compares unequal to every calendar field, so it is rejected the same way
a missing value is). -/
structure Job where
  id : Nat
  execution_time : Option BADateTime
  status : JobStatus
  type : Option String
  caducate : Option String
  folder_name : Option String
  users : List VepUser
deriving DecidableEq, Repr, BEq

/-! ## Candidate selection (`filterJobsForCurrentTime`) -/

/-- The per-job predicate inside `filterJobsForCurrentTime` (app.service.ts
lines 140–226).  `timeDiff` is `now.diff(jobTime, 'minutes').minutes`, held
here in exact milliseconds: `timeDiff < 0` ↔ `diffMs < 0`,
`timeDiff > 60` ↔ `diffMs > 3600000`, `timeDiff >= 2` ↔ `diffMs ≥ 120000`. -/
def jobMatchesCurrentTime (now : BADateTime) (job : Job) : Bool :=
  match job.execution_time with
  | none => false
  | some jobTime =>
    if ¬(now.day = jobTime.day ∧ now.month = jobTime.month ∧ now.year = jobTime.year) then
      false
    else if now.epochMs - jobTime.epochMs < 0 then
      false
    else if 3600000 < now.epochMs - jobTime.epochMs then
      false
    else if now.minute / 10 * 10 = jobTime.minute / 10 * 10 then
      true
    else if 120000 ≤ now.epochMs - jobTime.epochMs then
      true
    else
      false

/-- `filterJobsForCurrentTime(jobs, now)`. -/
def filterJobsForCurrentTime (jobs : List Job) (now : BADateTime) : List Job :=
  jobs.filter (fun job => jobMatchesCurrentTime now job)

/-- The candidate-selection step of `executePendingJobs`: the jobs returned
by `getJobTimesByStatus('PENDING')`, filtered by `filterJobsForCurrentTime`. -/
def selectCandidates (jobs : List Job) (now : BADateTime) : List Job :=
  filterJobsForCurrentTime (jobs.filter (fun j => j.status == JobStatus.PENDING)) now

/-! ## Template resolver (`getTemplateForJob`, `getDefaultTemplate`) -/

/-- The built-in default template texts (`getDefaultTemplate`).  The object
lookup `templates[type || '']` is rendered as an if-chain over the three
keys; `|| 'Hola {nombre}, buenos días.\n'` is the generic fallback for any
other key. -/
def getDefaultTemplate (ty : Option String) : String :=
  let key := match ty with | some s => s | none => ""
  if key = "autónomo" then
    "Hola \x7bnombre\x7d, buenos días, cómo estás? Te paso el vep de autónomo vence \x7bcaducate\x7d.\n"
  else if key = "credencial" then
    "Hola \x7bnombre\x7d, buenos días, cómo estás? Te paso la credencial del monotributo de \x7bmes_siguiente\x7d, vence el \x7bcaducate\x7d. El mismo ya cuenta con la recategorizacion.\n"
  else if key = "monotributo" then
    "Hola \x7bnombre\x7d, buenos días, cómo estás? Te paso el vep del monotributo del mes de \x7bmes_siguiente\x7d, vence el \x7bcaducate\x7d. el mismo ya tiene la recategorizacion realizada.\n"
  else
    "Hola \x7bnombre\x7d, buenos días.\n"

/-- The fixed job categories (keys of the default-template table). -/
def fixedCategories : List String := ["autónomo", "credencial", "monotributo"]

/-- Error raised when a stored template row exists but its text is blank. -/
def blankTemplateMsg (ty : String) : String :=
  "Template encontrado en BD para tipo \"" ++ ty ++
    "\" pero está vacío. La ejecución ha sido cancelada."

/-- Error raised when neither the store nor the defaults yield a template. -/
def noTemplateMsg (ty : String) : String :=
  "No se encontró template válido para tipo \"" ++ ty ++
    "\". La ejecución ha sido cancelada."

/-- Result of one `getTemplateForJob` call: the outcome, the template cache
after the call, and how many `getMessageTemplate` storage fetches were
issued. -/
structure TemplateResult where
  outcome : Except String String
  cache : List (String × String)
  fetches : Nat
deriving DecidableEq, Repr

/-- `Map.prototype.set` for the template cache (newest binding shadows). -/
def cacheSet (c : List (String × String)) (k v : String) : List (String × String) :=
  (k, v) :: c

/-- Steps 2–6 of `getTemplateForJob` (the part after the cache check).
`db ty` is the row returned by `supabaseService.getMessageTemplate(ty)`:
`none` when no row exists, `some t` for a row whose `template` column is
the nullable string `t`.  `templateData?.template || null` maps a missing
row, a null column and an empty-string column all to `null`. -/
def templateFetchStep (db : String → Option (Option String))
    (cache : List (String × String)) (ty : String) : TemplateResult :=
  let row := db ty
  let template : Option String :=
    match row with
    | some (some s) => if s = "" then none else some s
    | some none => none
    | none => none
  match row with
  | some _ =>
    match template with
    | none => { outcome := Except.error (blankTemplateMsg ty), cache := cache, fetches := 1 }
    | some s =>
      if jsTrim s = "" then
        { outcome := Except.error (blankTemplateMsg ty), cache := cache, fetches := 1 }
      else
        { outcome := Except.ok s, cache := cacheSet cache ty s, fetches := 1 }
  | none =>
    let d := getDefaultTemplate (some ty)
    if jsTrim d ≠ "" then
      { outcome := Except.ok d, cache := cacheSet cache ty d, fetches := 1 }
    else
      { outcome := Except.error (noTemplateMsg ty), cache := cache, fetches := 1 }

/-- `getTemplateForJob` (app.service.ts lines 532–585): a cache hit with a
non-blank text short-circuits; otherwise the store is consulted. -/
def getTemplateForJob (db : String → Option (Option String))
    (cache : List (String × String)) (ty : String) : TemplateResult :=
  match cache.lookup ty with
  | some cached =>
    if jsTrim cached ≠ "" then
      { outcome := Except.ok cached, cache := cache, fetches := 0 }
    else
      templateFetchStep db cache ty
  | none => templateFetchStep db cache ty

/-! ## Message renderer (`generateMessage` and helpers) -/

/-- The time-derived substitution inputs of `replaceTemplateVariables`
(`nextMonth` from `now.plus({months:1})`, `currentYear`). -/
structure RenderCtx where
  nextMonth : String
  currentYear : String
deriving DecidableEq, Repr

/-- `replaceTemplateVariables`: the eight placeholder replacements, applied
in object-insertion order, followed by the conversion of literal `\n`
escapes into real line breaks. -/
def replaceTemplateVariables (ctx : RenderCtx) (u : VepUser) (job : Job)
    (template : String) : String :=
  let nombre := jsOrS u.alter_name u.real_name
  let r := template
  let r := jsReplaceAll r "\x7bnombre\x7d" nombre
  let r := jsReplaceAll r "\x7balter_name\x7d" nombre
  let r := jsReplaceAll r "\x7breal_name\x7d" u.real_name
  let r := jsReplaceAll r "\x7bcaducate\x7d" (jsOrS job.caducate ctx.nextMonth)
  let r := jsReplaceAll r "\x7bmes\x7d" ctx.nextMonth
  let r := jsReplaceAll r "\x7baño\x7d" ctx.currentYear
  let r := jsReplaceAll r "\x7bmes_siguiente\x7d" (ctx.nextMonth ++ " " ++ ctx.currentYear)
  let r := jsReplaceAll r "\x7btipo\x7d" (jsOrS job.type "")
  jsReplaceAll r "\\n" "\n"

/-- Trailer sentence appended for `need_papers`. -/
def papersTrailer : String :=
  "No te olvides cuando puedas de mandarme los papeles de ventas. Saludos."

/-- Trailer sentence appended for `need_z`. -/
def zTrailer : String :=
  "No te olvides cuando puedas de mandarme el cierre Z. Saludos."

/-- Trailer sentence appended for `need_compra`. -/
def comprasTrailer : String :=
  "No te olvides cuando puedas de mandarme las compras. Saludos."

/-- Trailer sentence appended for `need_auditoria`. -/
def auditTrailer : String :=
  "No te olvides cuando puedas de mandarme el cierre de auditoría. Saludos."

/-- `appendAdditionalMessages`: sequentially appends one fixed trailer per
"needs" flag that is set. -/
def appendAdditionalMessages (message : String) (u : VepUser) : String :=
  let r := message
  let r := if u.need_papers then r ++ papersTrailer else r
  let r := if u.need_z then r ++ zTrailer else r
  let r := if u.need_compra then r ++ comprasTrailer else r
  let r := if u.need_auditoria then r ++ auditTrailer else r
  r

/-- The trailer sentences as the specification describes them: an ordered
list (papers, Z-closing, purchases, audit-closing) filtered by the
recipient's flags.  Stated from the spec's words, to be compared with the
source-derived `appendAdditionalMessages`. -/
def specTrailerList (u : VepUser) : List String :=
  (if u.need_papers then [papersTrailer] else []) ++
  (if u.need_z then [zTrailer] else []) ++
  (if u.need_compra then [comprasTrailer] else []) ++
  (if u.need_auditoria then [auditTrailer] else [])

/-- Concatenation of a list of strings. -/
def strJoin : List String → String
  | [] => ""
  | x :: xs => x ++ strJoin xs

/-- `generateMessage` (app.service.ts lines 591–608): prepend a greeting if
the template carries neither name token, substitute variables, then append
the flag-driven trailers. -/
def generateMessage (ctx : RenderCtx) (u : VepUser) (job : Job)
    (template : String) : String :=
  let t :=
    if ¬ jsIncludes template "\x7bnombre\x7d" ∧ ¬ jsIncludes template "\x7balter_name\x7d" then
      "Hola \x7bnombre\x7d, " ++ template
    else
      template
  appendAdditionalMessages (replaceTemplateVariables ctx u job t) u

/-! ## Delivery gateway (`WhatsappService`, src/unnamed/part_016) -/

/-- The mutable gateway state: circuit-breaker counters and the rate
limiter's sliding window of send timestamps. -/
structure WAState where
  consecutiveFailures : Nat
  circuitOpen : Bool
  circuitOpenUntil : Option Int
  messageTimestamps : List Int
deriving DecidableEq, Repr

/-- `maxFailures` (circuit-breaker threshold). -/
def maxFailures : Nat := 5

/-- Circuit-breaker cooldown: 5 minutes in milliseconds. -/
def circuitCooldownMs : Int := 5 * 60 * 1000

/-- `maxMessagesPerMinute` (rate-limiter cap). -/
def maxMessagesPerMinute : Nat := 20

/-- `MAX_FILE_SIZE`: 16 MiB, the channel's attachment ceiling. -/
def MAX_FILE_SIZE : Nat := 16 * 1024 * 1024

/-- The message thrown while the circuit is open, carrying the remaining
wait in seconds (`Math.ceil((until - now) / 1000)`, exact for the positive
difference at which it is thrown). -/
def circuitOpenMsg (waitUntil now : Int) : String :=
  "Circuit breaker is open. WhatsApp service temporarily unavailable. Retry in " ++
    toString ((waitUntil - now + 999) / 1000) ++ "s."

/-- `checkCircuitBreaker` (part_016 lines 525–539): while open and before
`circuitOpenUntil` (a truthy, i.e. non-null non-zero, timestamp), throw the
wait-time error; otherwise close the circuit and reset the counter. -/
def checkCircuitBreaker (s : WAState) (now : Int) : Except String WAState :=
  if s.circuitOpen then
    match s.circuitOpenUntil with
    | some u =>
      if u ≠ 0 ∧ now < u then
        Except.error (circuitOpenMsg u now)
      else
        Except.ok { s with circuitOpen := false, consecutiveFailures := 0,
                           circuitOpenUntil := none }
    | none =>
      Except.ok { s with circuitOpen := false, consecutiveFailures := 0,
                         circuitOpenUntil := none }
  else
    Except.ok s

/-- `recordSuccess`: zero the failure counter and close an open circuit. -/
def recordSuccess (s : WAState) : WAState :=
  if s.circuitOpen then
    { s with consecutiveFailures := 0, circuitOpen := false, circuitOpenUntil := none }
  else
    { s with consecutiveFailures := 0 }

/-- `recordFailure`: bump the failure counter; at `maxFailures` open the
circuit for the 5-minute cooldown. -/
def recordFailure (s : WAState) (now : Int) : WAState :=
  let s' := { s with consecutiveFailures := s.consecutiveFailures + 1 }
  if maxFailures ≤ s'.consecutiveFailures then
    { s' with circuitOpen := true, circuitOpenUntil := some (now + circuitCooldownMs) }
  else
    s'

/-- `checkRateLimit` (part_016 lines 570–591): drop window entries older
than one minute, sleep when the cap is reached (the model clock does not
advance across the sleep, so the post-sleep cleanup filters with the same
`now`), then push the current timestamp. -/
def checkRateLimit (s : WAState) (now : Int) : WAState :=
  let ts := s.messageTimestamps.filter (fun t => now - 60000 < t)
  if maxMessagesPerMinute ≤ ts.length then
    let ts2 := ts.filter (fun t => now < t)
    { s with messageTimestamps := ts2 ++ [now] }
  else
    { s with messageTimestamps := ts ++ [now] }

/-- A network call on the Baileys socket (`socket.sendMessage`). -/
inductive NetCall
  | textMsg
  | mediaMsg
deriving DecidableEq, Repr, BEq

/-- Oracle for the retry loop of `sendMessageVep`: per attempt number,
whether the connection is available once `waitForConnection` has run, and
the outcome of the network send (`none` = delivered, `some e` = the send
rejected or timed out with message `e`). -/
structure SendEnv where
  connTry : Nat → Bool
  netResult : Nat → Option String

/-- The `for (attempt = 1; attempt <= maxRetries; ...)` loop of
`sendMessageVep`.  `remaining + 1` is the number of attempts still allowed
(so `remaining = 0` marks the final attempt); a disconnected attempt fails
without a network call, a connected attempt performs exactly one network
call; the final attempt's failure is recorded on the breaker and rethrown
wrapped in the retry-exhaustion message; backoff sleeps are unobservable. -/
def vepAttempts (env : SendEnv) (now : Int) :
    Nat → Nat → WAState → Except String Unit × WAState × List NetCall
  | 0, _, s => (Except.error "no attempts", s, [])
  | remaining + 1, attempt, s =>
    if env.connTry attempt = false then
      if remaining = 0 then
        (Except.error
          ("Failed to send document message after 3 attempts: WhatsApp not connected after waiting"),
         recordFailure s now, [])
      else
        let next := vepAttempts env now remaining (attempt + 1) s
        (next.1, next.2.1, next.2.2)
    else
      match env.netResult attempt with
      | none => (Except.ok (), recordSuccess s, [NetCall.mediaMsg])
      | some e =>
        if remaining = 0 then
          (Except.error ("Failed to send document message after 3 attempts: " ++ e),
           recordFailure s now, [NetCall.mediaMsg])
        else
          let next := vepAttempts env now remaining (attempt + 1) s
          (next.1, next.2.1, NetCall.mediaMsg :: next.2.2)

/-- The size-guard rejection message.  The interpolated megabyte figure
(`toFixed(2)`, floating point) is abstracted away; nothing below depends on
it. -/
def oversizeMsg (fileName : String) : String :=
  "Archivo " ++ fileName ++
    " excede el tamaño máximo permitido. WhatsApp no permite archivos mayores a 16MB."

/-- `sendMessageVep` (part_016 lines 593–747) on the `'document'` media
path: circuit-breaker check, then rate limiter, then the attachment size
guard (which records a breaker failure and throws with no retry), then up
to three attempts on the socket.  The attachment is represented by its
byte length, which is all the guard reads. -/
def sendMessageVep (env : SendEnv) (s : WAState) (now : Int)
    (text fileName : String) (archiveSize : Nat) :
    Except String Unit × WAState × List NetCall :=
  let _caption := jsReplaceAll text "\\n" "\n"
  match checkCircuitBreaker s now with
  | Except.error e => (Except.error e, s, [])
  | Except.ok s1 =>
    let s2 := checkRateLimit s1 now
    if MAX_FILE_SIZE < archiveSize then
      (Except.error (oversizeMsg fileName), recordFailure s2 now, [])
    else
      vepAttempts env now 3 1 s2

/-- A file handed to `sendMultipleFiles`: the attachment (its byte length),
the generated file name, the media tag and mimetype. -/
structure FileSpec where
  size : Nat
  fileName : String
  media : String
  mimetype : String
deriving DecidableEq, Repr

/-- Oracle for `sendMultipleFiles`: the outcome of the leading text-only
send and of each per-position document send (`none` = delivered). -/
structure MultiEnv where
  textResult : Option String
  fileResult : Nat → Option String

/-- The per-file loop of `sendMultipleFiles`: each supported media type
performs exactly one network call; a send error (`env.fileResult i`) is
caught inside the loop and the loop continues with the next file, so the
outcome does not influence the result; the 1-second inter-file pause is
unobservable. -/
def multiFileCalls (env : MultiEnv) : List FileSpec → Nat → List NetCall
  | [], _ => []
  | f :: rest, i =>
    let calls :=
      if f.media = "document" ∨ f.media = "image" ∨ f.media = "video" ∨ f.media = "audio" then
        [NetCall.mediaMsg]
      else
        []
    calls ++ multiFileCalls env rest (i + 1)

/-- `sendMultipleFiles` (part_016 lines 750–808): sends the text body first
when `text` is truthy (an error there propagates), then each file in order
with per-file errors swallowed.  No circuit-breaker, rate-limiter or size
check appears on this path, and the gateway state is left untouched. -/
def sendMultipleFiles (env : MultiEnv) (s : WAState) (text : String)
    (files : List FileSpec) : Except String Unit × WAState × List NetCall :=
  if text ≠ "" then
    match env.textResult with
    | some e => (Except.error e, s, [NetCall.textMsg])
    | none => (Except.ok (), s, NetCall.textMsg :: multiFileCalls env files 0)
  else
    (Except.ok (), s, multiFileCalls env files 0)

/-- `sendMultipleDocuments`: tags every entry as a `'document'` with a PDF
mimetype and delegates to `sendMultipleFiles`. -/
def sendMultipleDocuments (env : MultiEnv) (s : WAState) (text : String)
    (docs : List (Nat × String)) : Except String Unit × WAState × List NetCall :=
  sendMultipleFiles env s text
    (docs.map (fun d => { size := d.1, fileName := d.2, media := "document",
                          mimetype := "application/pdf" }))

/-! ## Job execution pipeline (`executeJob` / `processJobExecution` /
`sendMessageToUser`) -/

/-- The externally observable I/O of one `executeJob` run. -/
inductive Eff
  | claimAttempt (jobId : Nat)
  | statusUpdate (jobId : Nat) (status : JobStatus) (executedAt : Option Int)
  | templateFetch (ty : String)
  | fileFetch (cuit : Option String) (folder : String)
  | wsSend (c : NetCall)
  | sentUpdate (jobId : Nat) (userId : Nat) (sent : Bool)
  | lastExec (userId : Nat)
deriving DecidableEq, Repr, BEq

/-- The environment of one scheduler tick: outcomes of every external call.
`claimSucceeds` is the result of the atomic conditional update
`updateJobTimeToRunningIfPending` (a non-null row iff the job was still
PENDING); `db` is `getMessageTemplate`; `fetchFile cuit folder` is
`digitalOceanService.getFileVepsByCuit` (`none` = the fetch threw, `some n`
= a buffer of `n` bytes); `sendEnvOf` / `multiEnvOf` give the per-recipient
socket oracles, keyed by recipient id; `now` is the tick's clock. -/
structure Env where
  claimSucceeds : Bool
  connected : Bool
  db : String → Option (Option String)
  fetchFile : Option String → String → Option Nat
  sendEnvOf : Nat → SendEnv
  multiEnvOf : Nat → MultiEnv
  now : Int
  ctx : RenderCtx

/-- `${user.real_name} [${user.cuit}].pdf`. -/
def vepFileName (u : VepUser) : String :=
  u.real_name ++ " [" ++ interpOpt u.cuit ++ "].pdf"

/-- Per-position file name in the multi-document path: position 0 carries
the primary's name, position `i > 0` is labelled after `joined_users[i-1]`
(the out-of-bounds padding is unreachable because at most one archive per
joined user plus one primary archive is ever accumulated). -/
def multiFileName (u : VepUser) (i : Nat) : String :=
  if i = 0 then
    vepFileName u
  else
    match u.joined_users.get? (i - 1) with
    | some j => j.name ++ " [" ++ interpOpt j.cuit ++ "].pdf"
    | none => "undefined [undefined].pdf"

/-- The documents handed to `sendMultipleDocuments`: each accumulated
archive, paired with its positional file name. -/
def docsFor (u : VepUser) (archives : List Nat) : List (Nat × String) :=
  archives.enum.map (fun p => (p.2, multiFileName u p.1))

/-- The cuit enumeration inside the no-attachments error:
`[user.cuit, ...joined.map(j => j.cuit).filter(Boolean)].join(', ')` when
the primary cuit is truthy, otherwise the truthy joined cuits or the
literal `'sin-cuit'`. -/
def truthyJoinedCuits (js : List JoinedUser) : List String :=
  js.filterMap (fun j =>
    match j.cuit with
    | some s => if s = "" then none else some s
    | none => none)

/-- See `truthyJoinedCuits`. -/
def cuitList (u : VepUser) : String :=
  let joined := joinSep ", " (truthyJoinedCuits u.joined_users)
  match u.cuit with
  | some c =>
    if c ≠ "" then
      joinSep ", " (c :: truthyJoinedCuits u.joined_users)
    else
      if joined = "" then "sin-cuit" else joined
  | none => if joined = "" then "sin-cuit" else joined

/-- The error thrown when both fetch passes accumulated zero documents. -/
def noFilesMsg (u : VepUser) : String :=
  "No se encontraron archivos para el usuario " ++ u.real_name ++
    ". Se buscaron archivos para los CUITs: " ++ cuitList u

/-- The linked-users fetch pass: every joined user whose cuit differs from
the primary's (strict `!==` on the nullable strings) triggers one fetch; a
fetch failure is swallowed; a joined user whose cuit equals the primary's
is skipped without a fetch. -/
def joinedFetchPass (env : Env) (folder : String) (primCuit : Option String) :
    List JoinedUser → List Nat × List Eff
  | [] => ([], [])
  | j :: rest =>
    if j.cuit ≠ primCuit then
      let tail := joinedFetchPass env folder primCuit rest
      match env.fetchFile j.cuit folder with
      | some f => (f :: tail.1, Eff.fileFetch j.cuit folder :: tail.2)
      | none => (tail.1, Eff.fileFetch j.cuit folder :: tail.2)
    else
      joinedFetchPass env folder primCuit rest

/-- The two fetch passes of `sendMessageToUser`: the primary document when
the cuit is truthy (a fetch failure is swallowed), then the linked
documents.  Returns the accumulated archives and the fetch effects. -/
def fetchArchives (env : Env) (u : VepUser) (folder : String) :
    List Nat × List Eff :=
  let prim : List Nat × List Eff :=
    if truthyOpt u.cuit then
      match env.fetchFile u.cuit folder with
      | some f => ([f], [Eff.fileFetch u.cuit folder])
      | none => ([], [Eff.fileFetch u.cuit folder])
    else
      ([], [])
  let joined := joinedFetchPass env folder u.cuit u.joined_users
  (prim.1 ++ joined.1, prim.2 ++ joined.2)

/-- `sendMessageToUser` (app.service.ts lines 394–526): render the message,
run the two fetch passes, fail when nothing was accumulated, then send
through the single-document or multi-document gateway path; on a delivered
message the `last_execution` update is issued (its own failure is
swallowed).  Any escaping error is rethrown by the outer catch. -/
def sendMessageToUser (env : Env) (s : WAState) (u : VepUser) (job : Job)
    (template : String) : Except String Unit × WAState × List Eff :=
  let message := generateMessage env.ctx u job template
  let folder := jsOrS job.folder_name "veps_default"
  let archives := (fetchArchives env u folder).1
  let fetchEffs := (fetchArchives env u folder).2
  match archives with
  | [] => (Except.error (noFilesMsg u), s, fetchEffs)
  | [a] =>
    match sendMessageVep (env.sendEnvOf u.id) s env.now message (vepFileName u) a with
    | (Except.ok _, s', calls) =>
      (Except.ok (), s', fetchEffs ++ calls.map Eff.wsSend ++ [Eff.lastExec u.id])
    | (Except.error e, s', calls) =>
      (Except.error e, s', fetchEffs ++ calls.map Eff.wsSend)
  | a :: b :: rest =>
    match sendMultipleDocuments (env.multiEnvOf u.id) s message
        (docsFor u (a :: b :: rest)) with
    | (Except.ok _, s', calls) =>
      (Except.ok (), s', fetchEffs ++ calls.map Eff.wsSend ++ [Eff.lastExec u.id])
    | (Except.error e, s', calls) =>
      (Except.error e, s', fetchEffs ++ calls.map Eff.wsSend)

/-- Recognizer for storage fetch effects. -/
def isFileFetch : Eff → Bool
  | Eff.fileFetch _ _ => true
  | _ => false

/-- Effects that the per-recipient loop may emit (no job status writes, no
claim attempts, no template fetches). -/
def isUserEff : Eff → Bool
  | Eff.fileFetch _ _ => true
  | Eff.wsSend _ => true
  | Eff.lastExec _ => true
  | Eff.sentUpdate _ _ _ => true
  | _ => false

/-- The fetches the linked-users pass performs, described independently of
fetch outcomes: one per joined user whose cuit differs from the primary's,
in list order (joined users are not deduplicated among themselves). -/
def joinedFetchExpected (folder : String) (prim : Option String) :
    List JoinedUser → List Eff
  | [] => []
  | j :: rest =>
    if j.cuit ≠ prim then
      Eff.fileFetch j.cuit folder :: joinedFetchExpected folder prim rest
    else
      joinedFetchExpected folder prim rest

/-- All fetches attachment resolution performs for a recipient: the primary
fetch when the cuit is truthy, then the linked fetches of
`joinedFetchExpected`. -/
def expectedFetchEffs (u : VepUser) (folder : String) : List Eff :=
  (if truthyOpt u.cuit then [Eff.fileFetch u.cuit folder] else []) ++
    joinedFetchExpected folder u.cuit u.joined_users

/-- One per-recipient row of the execution report. -/
structure UserResult where
  userId : Nat
  userName : String
  success : Bool
  error : Option String
deriving DecidableEq, Repr

/-- The per-recipient loop of `processJobExecution`: a delivery error is
caught, recorded (`sent: false`) and the loop continues; a delivered
message records `sent: true`.  The supabase `sent`-flag write is issued in
both branches (its own failure is caught and only logged); the 1.5-second
pause is unobservable. -/
def userLoop (env : Env) (job : Job) (template : String) :
    List VepUser → WAState → List UserResult × WAState × List Eff
  | [], s => ([], s, [])
  | u :: rest, s =>
    match sendMessageToUser env s u job template with
    | (Except.ok _, s', effs) =>
      let tail := userLoop env job template rest s'
      ({ userId := u.id, userName := u.real_name, success := true, error := none } :: tail.1,
       tail.2.1,
       effs ++ [Eff.sentUpdate job.id u.id true] ++ tail.2.2)
    | (Except.error e, s', effs) =>
      let tail := userLoop env job template rest s'
      ({ userId := u.id, userName := u.real_name, success := false, error := some e } :: tail.1,
       tail.2.1,
       effs ++ [Eff.sentUpdate job.id u.id false] ++ tail.2.2)

/-- The scheduler's instance state threaded across a tick: the template
cache plus the delivery gateway's state. -/
structure SchedState where
  templateCache : List (String × String)
  wa : WAState
deriving DecidableEq, Repr

/-- `processJobExecution` (app.service.ts lines 288–389): an empty
recipient list completes with an empty report; a falsy `job.type` or a
failed template resolution aborts before any recipient is touched;
otherwise the template is resolved once and the recipient loop runs. -/
def processJobExecution (env : Env) (st : SchedState) (job : Job) :
    Except String (List UserResult) × SchedState × List Eff :=
  if job.users.isEmpty then
    (Except.ok [], st, [])
  else if truthyOpt job.type = false then
    (Except.error "Job no tiene tipo definido", st, [])
  else
    let ty := jsOrS job.type ""
    let tr := getTemplateForJob env.db st.templateCache ty
    let tEffs := if tr.fetches = 0 then ([] : List Eff) else [Eff.templateFetch ty]
    match tr.outcome with
    | Except.error e => (Except.error e, { st with templateCache := tr.cache }, tEffs)
    | Except.ok template =>
      if jsTrim template = "" then
        (Except.error
          ("Template no encontrado o vacío para tipo \"" ++ ty ++
            "\". La ejecución ha sido cancelada."),
         { st with templateCache := tr.cache }, tEffs)
      else
        let run := userLoop env job template job.users st.wa
        (Except.ok run.1, { templateCache := tr.cache, wa := run.2.1 }, tEffs ++ run.2.2)

/-- `executeJob` (app.service.ts lines 232–283): the atomic conditional
claim (`PENDING → RUNNING`) is attempted first — a zero-row update returns
`null` with no further work and no error; once claimed, a disconnected
channel or a `processJobExecution` error marks the job ERROR (and
rethrows), and a completed run marks it FINISHED with an `executed_at`
timestamp. -/
def executeJob (env : Env) (st : SchedState) (job : Job) :
    Except String (Option (List UserResult)) × SchedState × List Eff :=
  if env.claimSucceeds = false then
    (Except.ok none, st, [Eff.claimAttempt job.id])
  else if env.connected = false then
    (Except.error "WhatsApp no está conectado", st,
     [Eff.claimAttempt job.id, Eff.statusUpdate job.id JobStatus.ERROR (some env.now)])
  else
    match processJobExecution env st job with
    | (Except.ok results, st', effs) =>
      (Except.ok (some results), st',
       Eff.claimAttempt job.id :: effs ++ [Eff.statusUpdate job.id JobStatus.FINISHED (some env.now)])
    | (Except.error e, st', effs) =>
      (Except.error e, st',
       Eff.claimAttempt job.id :: effs ++ [Eff.statusUpdate job.id JobStatus.ERROR (some env.now)])

/-! ## Concrete fixtures used by witnesses and counterexamples -/

/-- A socket oracle whose sends always deliver. -/
def sendOkEnv : SendEnv := { connTry := fun _ => true, netResult := fun _ => none }

/-- A socket oracle whose sends always fail. -/
def sendFailEnv : SendEnv := { connTry := fun _ => true, netResult := fun _ => some "Message send timeout" }

/-- A multi-send oracle whose text send delivers and every document send
fails. -/
def multiDocsFailEnv : MultiEnv := { textResult := none, fileResult := fun _ => some "Connection Closed" }

/-- A multi-send oracle where everything delivers. -/
def multiOkEnv : MultiEnv := { textResult := none, fileResult := fun _ => none }

/-- A fixed render clock. -/
def ctx0 : RenderCtx := { nextMonth := "enero", currentYear := "2026" }

/-- A fresh gateway state. -/
def wa0 : WAState :=
  { consecutiveFailures := 0, circuitOpen := false, circuitOpenUntil := none,
    messageTimestamps := [] }

/-- A gateway state whose circuit is open until t = 400000 ms. -/
def waOpen : WAState :=
  { consecutiveFailures := 5, circuitOpen := true, circuitOpenUntil := some 400000,
    messageTimestamps := [] }

/-- A closed-circuit state one failure short of the threshold. -/
def wa4 : WAState :=
  { consecutiveFailures := 4, circuitOpen := false, circuitOpenUntil := none,
    messageTimestamps := [] }

/-- A second open-circuit state (distinct fixture). -/
def waOpen2 : WAState :=
  { consecutiveFailures := 6, circuitOpen := true, circuitOpenUntil := some 900000,
    messageTimestamps := [50] }

/-- A fresh scheduler state. -/
def st0 : SchedState := { templateCache := [], wa := wa0 }

/-- A scheduled time: 2025-06-05, minute 7 of its hour, epoch-offset 0. -/
def t0 : BADateTime := { year := 2025, month := 6, day := 5, minute := 7, epochMs := 0 }

/-- Three minutes after `t0`, in the next 10-minute bucket. -/
def now0 : BADateTime := { year := 2025, month := 6, day := 5, minute := 10, epochMs := 180000 }

/-- A pending job scheduled at `t0` with no recipients. -/
def job0 : Job :=
  { id := 1, execution_time := some t0, status := JobStatus.PENDING,
    type := some "monotributo", caducate := none, folder_name := none, users := [] }

/-- An environment whose conditional claim update affected zero rows. -/
def envClaimFail : Env :=
  { claimSucceeds := false, connected := true, db := fun _ => none,
    fetchFile := fun _ _ => none, sendEnvOf := fun _ => sendOkEnv,
    multiEnvOf := fun _ => multiOkEnv, now := 0, ctx := ctx0 }

/-- Recipient fixture: all flags off, informal name "Ana". -/
def ana : VepUser :=
  { id := 11, real_name := "Ana García", alter_name := some "Ana",
    mobile_number := "549115550001", cuit := some "27-1", is_group := false,
    joined_users := [], need_papers := false, need_z := false,
    need_compra := false, need_auditoria := false, sent := none }

/-- Recipient fixture whose attachment fetch will fail (cuit "20-2"). -/
def beto : VepUser :=
  { id := 12, real_name := "Beto Díaz", alter_name := some "Beto",
    mobile_number := "549115550002", cuit := some "20-2", is_group := false,
    joined_users := [], need_papers := false, need_z := false,
    need_compra := false, need_auditoria := false, sent := none }

/-- Recipient fixture (cuit "23-3"). -/
def cira : VepUser :=
  { id := 13, real_name := "Cira López", alter_name := some "Cira",
    mobile_number := "549115550003", cuit := some "23-3", is_group := false,
    joined_users := [], need_papers := false, need_z := false,
    need_compra := false, need_auditoria := false, sent := none }

/-- A job with the three recipients above. -/
def job3 : Job :=
  { id := 2, execution_time := some t0, status := JobStatus.PENDING,
    type := some "monotributo", caducate := some "31/12", folder_name := some "veps_junio",
    users := [ana, beto, cira] }

/-- Environment for the three-recipient run: a stored one-line template,
document fetches succeed for every cuit except `beto`'s "20-2", the socket
always delivers. -/
def envPartial : Env :=
  { claimSucceeds := true, connected := true,
    db := fun _ => some (some "Hola \x7bnombre\x7d, vence \x7bcaducate\x7d"),
    fetchFile := fun c _ => if c = some "20-2" then none else some 700,
    sendEnvOf := fun _ => sendOkEnv, multiEnvOf := fun _ => multiOkEnv,
    now := 555, ctx := ctx0 }

/-- Recipient with two joined users sharing the cuit "20-2" (distinct from
the primary's "20-1"). -/
def dupJoined : VepUser :=
  { id := 21, real_name := "Dora Paz", alter_name := some "Dora",
    mobile_number := "549115550004", cuit := some "20-1", is_group := false,
    joined_users := [{ name := "Juan", cuit := some "20-2" }, { name := "Jopo", cuit := some "20-2" }],
    need_papers := false, need_z := false, need_compra := false,
    need_auditoria := false, sent := none }

/-- A job for the dedup counterexample (default folder). -/
def jobDup : Job :=
  { id := 3, execution_time := none, status := JobStatus.RUNNING,
    type := some "monotributo", caducate := none, folder_name := none,
    users := [dupJoined] }

/-- Environment where every document fetch succeeds with a 700-byte file. -/
def envAllFetchOk : Env :=
  { claimSucceeds := true, connected := true, db := fun _ => none,
    fetchFile := fun _ _ => some 700,
    sendEnvOf := fun _ => sendOkEnv, multiEnvOf := fun _ => multiOkEnv,
    now := 0, ctx := ctx0 }

/-- Recipient with one joined user on a different cuit, for the
multi-attachment path. -/
def elsa : VepUser :=
  { id := 31, real_name := "Elsa Ruiz", alter_name := some "Elsa",
    mobile_number := "549115550005", cuit := some "20-5", is_group := false,
    joined_users := [{ name := "Fede", cuit := some "20-6" }],
    need_papers := false, need_z := false, need_compra := false,
    need_auditoria := false, sent := none }

/-- Environment where document fetches succeed, the multi-path text send
delivers, and every multi-path document send fails. -/
def envMultiFail : Env :=
  { claimSucceeds := true, connected := true, db := fun _ => none,
    fetchFile := fun _ _ => some 700, sendEnvOf := fun _ => sendFailEnv,
    multiEnvOf := fun _ => multiDocsFailEnv, now := 3, ctx := ctx0 }

/-- A 17 MiB document handed to the multi-file path. -/
def bigDoc : FileSpec :=
  { size := 17 * 1024 * 1024, fileName := "grande.pdf", media := "document",
    mimetype := "application/pdf" }

/-- A second oversized document (distinct fixture). -/
def bigDoc2 : FileSpec :=
  { size := 20 * 1024 * 1024, fileName := "enorme.pdf", media := "document",
    mimetype := "application/pdf" }

/-- Environment whose template store returns a blank (whitespace-only)
template row for every category. -/
def envBlankTpl : Env :=
  { claimSucceeds := true, connected := true, db := fun _ => some (some "  "),
    fetchFile := fun _ _ => some 700, sendEnvOf := fun _ => sendOkEnv,
    multiEnvOf := fun _ => multiOkEnv, now := 9, ctx := ctx0 }

/-! ## Helper lemmas -/

theorem lookup_cacheSet (c : List (String × String)) (k v : String) :
    List.lookup k (cacheSet c k v) = some v := by
  simp [cacheSet, List.lookup]

theorem templateFetchStep_ok_shape (db : String → Option (Option String))
    (cache : List (String × String)) (ty t : String)
    (h : (templateFetchStep db cache ty).outcome = Except.ok t) :
    List.lookup ty (templateFetchStep db cache ty).cache = some t ∧
      jsTrim t ≠ "" ∧ (templateFetchStep db cache ty).fetches = 1 := by
  unfold templateFetchStep at h ⊢
  cases hd : db ty with
  | some rt =>
    cases rt with
    | some s =>
      by_cases hs : s = ""
      · simp [hd, hs] at h
      · simp only [hd, if_neg hs] at h ⊢
        by_cases hts : jsTrim s = ""
        · simp [hts] at h
        · simp only [if_neg hts] at h ⊢
          simp only [Except.ok.injEq] at h
          subst h
          exact ⟨lookup_cacheSet cache ty s, hts, trivial⟩
    | none => simp [hd] at h
  | none =>
    simp only [hd] at h ⊢
    by_cases hdt : jsTrim (getDefaultTemplate (some ty)) ≠ ""
    · simp only [if_pos hdt] at h ⊢
      simp only [Except.ok.injEq] at h
      subst h
      exact ⟨lookup_cacheSet cache ty _, hdt, trivial⟩
    · simp only [if_neg hdt] at h
      simp at h

theorem getTemplateForJob_ok_shape (db : String → Option (Option String))
    (cache : List (String × String)) (ty t : String)
    (h : (getTemplateForJob db cache ty).outcome = Except.ok t) :
    List.lookup ty (getTemplateForJob db cache ty).cache = some t ∧
      jsTrim t ≠ "" ∧ (getTemplateForJob db cache ty).fetches ≤ 1 := by
  unfold getTemplateForJob at h ⊢
  cases hc : List.lookup ty cache with
  | some cached =>
    simp only [hc] at h ⊢
    split_ifs at h ⊢ with ht
    · simp only [Except.ok.injEq] at h
      subst h
      exact ⟨hc, ht, Nat.zero_le 1⟩
    · have step := templateFetchStep_ok_shape db cache ty t h
      exact ⟨step.1, step.2.1, step.2.2.le⟩
  | none =>
    simp only [hc] at h ⊢
    have step := templateFetchStep_ok_shape db cache ty t h
    exact ⟨step.1, step.2.1, step.2.2.le⟩

theorem getTemplateForJob_cache_hit (db : String → Option (Option String))
    (cache : List (String × String)) (ty t : String)
    (hl : List.lookup ty cache = some t) (ht : jsTrim t ≠ "") :
    getTemplateForJob db cache ty = { outcome := Except.ok t, cache := cache, fetches := 0 } := by
  unfold getTemplateForJob
  rw [hl]
  simp [ht]

theorem jobMatches_iff (now t : BADateTime) (job : Job)
    (het : job.execution_time = some t) :
    jobMatchesCurrentTime now job = true ↔
      (now.day = t.day ∧ now.month = t.month ∧ now.year = t.year) ∧
      0 ≤ now.epochMs - t.epochMs ∧ now.epochMs - t.epochMs ≤ 3600000 ∧
      (now.minute / 10 = t.minute / 10 ∨ 120000 ≤ now.epochMs - t.epochMs) := by
  simp only [jobMatchesCurrentTime, het]
  split_ifs with h1 h2 h3 h4 h5 <;> (simp_all; try omega)

theorem joinedFetchPass_effs (env : Env) (folder : String) (prim : Option String) :
    ∀ js : List JoinedUser,
      (joinedFetchPass env folder prim js).2 = joinedFetchExpected folder prim js := by
  intro js
  induction js with
  | nil => rfl
  | cons j rest ih =>
    by_cases h : j.cuit ≠ prim
    · cases hf : env.fetchFile j.cuit folder <;>
        simp [joinedFetchPass, joinedFetchExpected, h, hf, ih]
    · simp [joinedFetchPass, joinedFetchExpected, h, ih]

theorem fetchArchives_effs (env : Env) (u : VepUser) (folder : String) :
    (fetchArchives env u folder).2 = expectedFetchEffs u folder := by
  unfold fetchArchives expectedFetchEffs
  cases ht : truthyOpt u.cuit <;>
    [skip; cases hf : env.fetchFile u.cuit folder] <;>
    simp [ht, joinedFetchPass_effs, *]

theorem joinedFetchExpected_all_fetch (folder : String) (prim : Option String) :
    ∀ js : List JoinedUser, ∀ e ∈ joinedFetchExpected folder prim js,
      isFileFetch e = true := by
  intro js
  induction js with
  | nil => simp [joinedFetchExpected]
  | cons j rest ih =>
    intro e he
    unfold joinedFetchExpected at he
    by_cases h : j.cuit ≠ prim
    · rw [if_pos h] at he
      rcases List.mem_cons.mp he with rfl | he2
      · rfl
      · exact ih e he2
    · rw [if_neg h] at he
      exact ih e he

theorem expectedFetchEffs_all_fetch (u : VepUser) (folder : String) :
    ∀ e ∈ expectedFetchEffs u folder, isFileFetch e = true := by
  intro e he
  unfold expectedFetchEffs at he
  rcases List.mem_append.mp he with h | h
  · revert h
    split_ifs <;> simp_all [isFileFetch]
  · exact joinedFetchExpected_all_fetch folder u.cuit u.joined_users e h

theorem filter_fileFetch_expected (u : VepUser) (folder : String) :
    (expectedFetchEffs u folder).filter isFileFetch = expectedFetchEffs u folder :=
  List.filter_eq_self.mpr (expectedFetchEffs_all_fetch u folder)

theorem filter_fileFetch_wsSend (l : List NetCall) :
    (l.map Eff.wsSend).filter isFileFetch = [] := by
  induction l with
  | nil => rfl
  | cons c rest ih => simp [isFileFetch, ih]

theorem sendMessageToUser_fetch_trace (env : Env) (s : WAState) (u : VepUser)
    (job : Job) (tmpl : String) :
    ((sendMessageToUser env s u job tmpl).2.2).filter isFileFetch =
      expectedFetchEffs u (jsOrS job.folder_name "veps_default") := by
  unfold sendMessageToUser
  dsimp only
  rcases harch : (fetchArchives env u (jsOrS job.folder_name "veps_default")).1 with
    _ | ⟨a, rest⟩
  · dsimp only
    rw [fetchArchives_effs, filter_fileFetch_expected]
  · rcases rest with _ | ⟨b, rest2⟩
    · dsimp only
      rcases hsend : sendMessageVep (env.sendEnvOf u.id) s env.now
          (generateMessage env.ctx u job tmpl) (vepFileName u) a with ⟨r, s', calls⟩
      cases r <;>
        simp [List.filter_append, fetchArchives_effs, filter_fileFetch_expected,
          filter_fileFetch_wsSend, isFileFetch]
    · dsimp only
      rcases hsend : sendMultipleDocuments (env.multiEnvOf u.id) s
          (generateMessage env.ctx u job tmpl) (docsFor u (a :: b :: rest2)) with ⟨r, s', calls⟩
      cases r <;>
        simp [List.filter_append, fetchArchives_effs, filter_fileFetch_expected,
          filter_fileFetch_wsSend, isFileFetch]

theorem sendMessageToUser_effs_user (env : Env) (s : WAState) (u : VepUser)
    (job : Job) (tmpl : String) :
    ∀ e ∈ (sendMessageToUser env s u job tmpl).2.2, isUserEff e = true := by
  have hfe : ∀ e ∈ (fetchArchives env u (jsOrS job.folder_name "veps_default")).2,
      isUserEff e = true := by
    rw [fetchArchives_effs]
    intro e he
    have hff := expectedFetchEffs_all_fetch u _ e he
    cases e <;> simp_all [isFileFetch, isUserEff]
  have hws : ∀ (calls : List NetCall), ∀ e ∈ List.map Eff.wsSend calls,
      isUserEff e = true := by
    intro calls e he
    rcases List.mem_map.mp he with ⟨c, _, rfl⟩
    rfl
  unfold sendMessageToUser
  dsimp only
  rcases harch : (fetchArchives env u (jsOrS job.folder_name "veps_default")).1 with
    _ | ⟨a, rest⟩
  · exact hfe
  · rcases rest with _ | ⟨b, rest2⟩
    · dsimp only
      rcases hsend : sendMessageVep (env.sendEnvOf u.id) s env.now
          (generateMessage env.ctx u job tmpl) (vepFileName u) a with ⟨r, s', calls⟩
      cases r <;> intro e he <;> simp only [List.mem_append] at he
      · rcases he with he | he
        · exact hfe e he
        · exact hws calls e he
      · rcases he with (he | he) | he
        · exact hfe e he
        · exact hws calls e he
        · obtain rfl := List.mem_singleton.mp he
          rfl
    · dsimp only
      rcases hsend : sendMultipleDocuments (env.multiEnvOf u.id) s
          (generateMessage env.ctx u job tmpl) (docsFor u (a :: b :: rest2)) with ⟨r, s', calls⟩
      cases r <;> intro e he <;> simp only [List.mem_append] at he
      · rcases he with he | he
        · exact hfe e he
        · exact hws calls e he
      · rcases he with (he | he) | he
        · exact hfe e he
        · exact hws calls e he
        · obtain rfl := List.mem_singleton.mp he
          rfl

theorem userLoop_append (env : Env) (job : Job) (tmpl : String)
    (xs ys : List VepUser) (s : WAState) :
    userLoop env job tmpl (xs ++ ys) s =
      ((userLoop env job tmpl xs s).1 ++
         (userLoop env job tmpl ys (userLoop env job tmpl xs s).2.1).1,
       (userLoop env job tmpl ys (userLoop env job tmpl xs s).2.1).2.1,
       (userLoop env job tmpl xs s).2.2 ++
         (userLoop env job tmpl ys (userLoop env job tmpl xs s).2.1).2.2) := by
  induction xs generalizing s with
  | nil => simp [userLoop]
  | cons u rest ih =>
    rw [List.cons_append]
    rcases hsm : sendMessageToUser env s u job tmpl with ⟨r, s', es⟩
    cases r <;> simp [userLoop, hsm, ih s']

theorem userLoop_length (env : Env) (job : Job) (tmpl : String) :
    ∀ (users : List VepUser) (s : WAState),
      (userLoop env job tmpl users s).1.length = users.length := by
  intro users
  induction users with
  | nil => intro s; rfl
  | cons u rest ih =>
    intro s
    rcases hsm : sendMessageToUser env s u job tmpl with ⟨r, s', es⟩
    cases r <;> simp [userLoop, hsm, ih]

theorem userLoop_effs_user (env : Env) (job : Job) (tmpl : String) :
    ∀ (users : List VepUser) (s : WAState),
      ∀ e ∈ (userLoop env job tmpl users s).2.2, isUserEff e = true := by
  intro users
  induction users with
  | nil => intro s e he; simp [userLoop] at he
  | cons u rest ih =>
    intro s e he
    rcases hsm : sendMessageToUser env s u job tmpl with ⟨r, s', es⟩
    have hsm2 := sendMessageToUser_effs_user env s u job tmpl
    rw [hsm] at hsm2
    cases r <;> simp only [userLoop, hsm] at he <;>
      simp only [List.mem_append, List.mem_singleton] at he
    · rcases he with (he | rfl) | he
      · exact hsm2 e he
      · rfl
      · exact ih s' e he
    · rcases he with (he | rfl) | he
      · exact hsm2 e he
      · rfl
      · exact ih s' e he

theorem processJob_ok (env : Env) (st : SchedState) (job : Job) (tmpl : String)
    (hne : job.users ≠ []) (hty : truthyOpt job.type = true)
    (htmpl : (getTemplateForJob env.db st.templateCache (jsOrS job.type "")).outcome =
      Except.ok tmpl) :
    processJobExecution env st job =
      (Except.ok (userLoop env job tmpl job.users st.wa).1,
       { templateCache := (getTemplateForJob env.db st.templateCache (jsOrS job.type "")).cache,
         wa := (userLoop env job tmpl job.users st.wa).2.1 },
       (if (getTemplateForJob env.db st.templateCache (jsOrS job.type "")).fetches = 0 then
          ([] : List Eff)
        else [Eff.templateFetch (jsOrS job.type "")]) ++
         (userLoop env job tmpl job.users st.wa).2.2) := by
  have hnb := (getTemplateForJob_ok_shape env.db st.templateCache (jsOrS job.type "")
    tmpl htmpl).2.1
  unfold processJobExecution
  rw [if_neg (by simpa using hne), if_neg (by simp [hty])]
  dsimp only
  rw [htmpl]
  dsimp only
  rw [if_neg hnb]

theorem executeJob_ok (env : Env) (st : SchedState) (job : Job)
    (rs : List UserResult) (st' : SchedState) (effs : List Eff)
    (hclaim : env.claimSucceeds = true) (hconn : env.connected = true)
    (hproc : processJobExecution env st job = (Except.ok rs, st', effs)) :
    executeJob env st job =
      (Except.ok (some rs), st',
       Eff.claimAttempt job.id :: effs ++
         [Eff.statusUpdate job.id JobStatus.FINISHED (some env.now)]) := by
  unfold executeJob
  rw [if_neg (by simp [hclaim]), if_neg (by simp [hconn]), hproc]

theorem joinedFetchPass_none (env : Env) (folder : String) (prim : Option String)
    (hall : ∀ c f, env.fetchFile c f = none) :
    ∀ js : List JoinedUser, (joinedFetchPass env folder prim js).1 = [] := by
  intro js
  induction js with
  | nil => rfl
  | cons j rest ih =>
    by_cases h : j.cuit ≠ prim <;>
      simp [joinedFetchPass, h, hall, ih]

theorem fetchArchives_none (env : Env) (u : VepUser) (folder : String)
    (hall : ∀ c f, env.fetchFile c f = none) :
    (fetchArchives env u folder).1 = [] := by
  unfold fetchArchives
  cases ht : truthyOpt u.cuit <;>
    simp [ht, hall, joinedFetchPass_none env folder u.cuit hall]

/-! ## Claim theorems -/

/-- Claim C1: for a PENDING job whose execution time parses, candidate
selection accepts it iff it is in the polled list, falls on the same
calendar day/month/year as `now`, and `Δ = now − execution_time` satisfies
`0 ≤ Δ ≤ 60` minutes with either the same 10-minute-floor minute bucket or
`Δ ≥ 2` minutes; different-day, future and stale jobs are rejected. -/
theorem c1_time_window_selection (jobs : List Job) (job : Job)
    (t now : BADateTime) (het : job.execution_time = some t)
    (hst : job.status = JobStatus.PENDING) :
    job ∈ selectCandidates jobs now ↔
      job ∈ jobs ∧
      (now.day = t.day ∧ now.month = t.month ∧ now.year = t.year) ∧
      0 ≤ now.epochMs - t.epochMs ∧ now.epochMs - t.epochMs ≤ 3600000 ∧
      (now.minute / 10 = t.minute / 10 ∨ 120000 ≤ now.epochMs - t.epochMs) := by
  unfold selectCandidates filterJobsForCurrentTime
  rw [List.mem_filter, List.mem_filter, jobMatches_iff now t job het]
  simp only [hst, and_assoc, and_congr_right_iff]
  intro _
  exact and_iff_right rfl

/-- Witness for C1: a job 3 minutes past due (different bucket, `Δ ≥ 2`)
is selected. -/
theorem c1_witness : job0 ∈ selectCandidates [job0] now0 :=
  (c1_time_window_selection [job0] job0 t0 now0 rfl rfl).mpr
    ⟨by simp, by decide⟩

/-- Claim C2: when the atomic PENDING→RUNNING claim reports zero rows
updated, `executeJob` returns `null` at once — no template resolution, no
attachment fetch, no send, no further status write — and no error. -/
theorem c2_claim_conflict_is_noop (env : Env) (st : SchedState) (job : Job)
    (h : env.claimSucceeds = false) :
    executeJob env st job = (Except.ok none, st, [Eff.claimAttempt job.id]) := by
  simp [executeJob, h]

/-- Witness for C2 at a concrete environment and job. -/
theorem c2_witness :
    envClaimFail.claimSucceeds = false ∧
      executeJob envClaimFail st0 job0 = (Except.ok none, st0, [Eff.claimAttempt 1]) :=
  ⟨rfl, c2_claim_conflict_is_noop envClaimFail st0 job0 rfl⟩

/-- Claim C9: once a resolution of a category has succeeded, a second
resolution of the same category returns the same text from the cache with
zero storage fetches and leaves the cache unchanged; the pair issues at
most one fetch in total. -/
theorem c9_template_cache_idempotent (db : String → Option (Option String))
    (cache : List (String × String)) (ty t : String)
    (h : (getTemplateForJob db cache ty).outcome = Except.ok t) :
    getTemplateForJob db (getTemplateForJob db cache ty).cache ty =
      { outcome := Except.ok t, cache := (getTemplateForJob db cache ty).cache, fetches := 0 } ∧
      (getTemplateForJob db cache ty).fetches ≤ 1 := by
  have shape := getTemplateForJob_ok_shape db cache ty t h
  exact ⟨getTemplateForJob_cache_hit db _ ty t shape.1 shape.2.1, shape.2.2⟩

/-- Witness for C9: a stored template is fetched once and the repeat
resolution is served from the cache. -/
theorem c9_witness :
    getTemplateForJob (fun _ => some (some "Hola"))
        (getTemplateForJob (fun _ => some (some "Hola")) [] "credencial").cache "credencial" =
      { outcome := Except.ok "Hola",
        cache := (getTemplateForJob (fun _ => some (some "Hola")) [] "credencial").cache,
        fetches := 0 } ∧
      (getTemplateForJob (fun _ => some (some "Hola")) [] "credencial").fetches ≤ 1 :=
  c9_template_cache_idempotent (fun _ => some (some "Hola")) [] "credencial" "Hola" (by decide)

/-- Claim C5 (amended): with no usable cache entry, template resolution
fails — with no fallback — when a stored row exists but its text is blank,
and this failure aborts the job before any recipient is touched; when no
row exists for one of the three fixed categories, that category's built-in
default text is returned; and, contrary to the original claim, when no row
exists and the category matches none of the fixed categories, resolution
succeeds with the generic default greeting instead of failing. -/
theorem c5_template_resolution :
    (∀ (db : String → Option (Option String)) (cache : List (String × String))
        (ty : String) (rt : Option String),
        (∀ s, List.lookup ty cache = some s → jsTrim s = "") →
        db ty = some rt →
        (rt = none ∨ ∃ s, rt = some s ∧ jsTrim s = "") →
        (getTemplateForJob db cache ty).outcome = Except.error (blankTemplateMsg ty)) ∧
    (∀ (env : Env) (st : SchedState) (job : Job) (rt : Option String),
        env.claimSucceeds = true → env.connected = true →
        truthyOpt job.type = true → job.users ≠ [] →
        (∀ s, List.lookup (jsOrS job.type "") st.templateCache = some s → jsTrim s = "") →
        env.db (jsOrS job.type "") = some rt →
        (rt = none ∨ ∃ s, rt = some s ∧ jsTrim s = "") →
        (executeJob env st job).1 = Except.error (blankTemplateMsg (jsOrS job.type "")) ∧
        (∀ uid b, Eff.sentUpdate job.id uid b ∉ (executeJob env st job).2.2) ∧
        (∀ c f, Eff.fileFetch c f ∉ (executeJob env st job).2.2) ∧
        (∀ c, Eff.wsSend c ∉ (executeJob env st job).2.2) ∧
        Eff.statusUpdate job.id JobStatus.ERROR (some env.now) ∈ (executeJob env st job).2.2) ∧
    (∀ (db : String → Option (Option String)) (cache : List (String × String)) (ty : String),
        (∀ s, List.lookup ty cache = some s → jsTrim s = "") →
        db ty = none → ty ∈ fixedCategories →
        (getTemplateForJob db cache ty).outcome = Except.ok (getDefaultTemplate (some ty))) ∧
    (∀ (db : String → Option (Option String)) (cache : List (String × String)) (ty : String),
        (∀ s, List.lookup ty cache = some s → jsTrim s = "") →
        db ty = none → ty ∉ fixedCategories →
        (getTemplateForJob db cache ty).outcome =
          Except.ok "Hola \x7bnombre\x7d, buenos días.\n") := by
  have hblank : ∀ (db : String → Option (Option String)) (cache : List (String × String))
      (ty : String) (rt : Option String),
      (∀ s, List.lookup ty cache = some s → jsTrim s = "") →
      db ty = some rt →
      (rt = none ∨ ∃ s, rt = some s ∧ jsTrim s = "") →
      (getTemplateForJob db cache ty).outcome = Except.error (blankTemplateMsg ty) := by
    intro db cache ty rt hmiss hd hb
    have hstep : (templateFetchStep db cache ty).outcome = Except.error (blankTemplateMsg ty) := by
      unfold templateFetchStep
      rcases hb with rfl | ⟨s, rfl, hs⟩
      · simp [hd]
      · by_cases hz : s = ""
        · simp [hd, hz]
        · simp [hd, if_neg hz, hs]

    unfold getTemplateForJob
    cases hc : List.lookup ty cache with
    | some cached =>
      have : jsTrim cached = "" := hmiss cached hc
      simp [this, hstep]
    | none => simpa using hstep
  have hdefault : ∀ (db : String → Option (Option String))
      (cache : List (String × String)) (ty : String),
      (∀ s, List.lookup ty cache = some s → jsTrim s = "") →
      db ty = none →
      (getTemplateForJob db cache ty).outcome = Except.ok (getDefaultTemplate (some ty)) := by
    intro db cache ty hmiss hd
    have hnb : jsTrim (getDefaultTemplate (some ty)) ≠ "" := by
      unfold getDefaultTemplate
      dsimp only
      split_ifs <;> decide
    have hstep : (templateFetchStep db cache ty).outcome =
        Except.ok (getDefaultTemplate (some ty)) := by
      unfold templateFetchStep
      simp [hd, hnb]
    unfold getTemplateForJob
    cases hc : List.lookup ty cache with
    | some cached =>
      have : jsTrim cached = "" := hmiss cached hc
      simp [this, hstep]
    | none => simpa using hstep
  refine ⟨hblank, ?_, ?_, ?_⟩
  · intro env st job rt hclaim hconn hty hne hmiss hd hb
    have htpl := hblank env.db st.templateCache (jsOrS job.type "") rt hmiss hd hb
    have hproc : processJobExecution env st job =
        (Except.error (blankTemplateMsg (jsOrS job.type "")),
         { st with templateCache := (getTemplateForJob env.db st.templateCache (jsOrS job.type "")).cache },
         if (getTemplateForJob env.db st.templateCache (jsOrS job.type "")).fetches = 0 then ([] : List Eff)
         else [Eff.templateFetch (jsOrS job.type "")]) := by
      unfold processJobExecution
      rw [if_neg (by simpa using hne), if_neg (by simp [hty])]
      rcases ho : (getTemplateForJob env.db st.templateCache (jsOrS job.type "")).outcome with e | tpl
      · rw [htpl] at ho
        cases ho
        simp [htpl]
      · rw [htpl] at ho
        cases ho
    have hexec : executeJob env st job =
        (Except.error (blankTemplateMsg (jsOrS job.type "")),
         { st with templateCache := (getTemplateForJob env.db st.templateCache (jsOrS job.type "")).cache },
         Eff.claimAttempt job.id ::
           (if (getTemplateForJob env.db st.templateCache (jsOrS job.type "")).fetches = 0 then ([] : List Eff)
            else [Eff.templateFetch (jsOrS job.type "")]) ++
           [Eff.statusUpdate job.id JobStatus.ERROR (some env.now)]) := by
      unfold executeJob
      rw [if_neg (by simp [hclaim]), if_neg (by simp [hconn]), hproc]
    have hshape : ∀ e ∈ (executeJob env st job).2.2,
        e = Eff.claimAttempt job.id ∨ e = Eff.templateFetch (jsOrS job.type "") ∨
          e = Eff.statusUpdate job.id JobStatus.ERROR (some env.now) := by
      rw [hexec]
      intro e he
      rcases List.mem_cons.mp he with h | h
      · exact Or.inl h
      rcases List.mem_append.mp h with h | h
      · refine Or.inr (Or.inl ?_)
        revert h
        split_ifs <;> simp
      · simp only [List.mem_singleton] at h
        exact Or.inr (Or.inr h)
    refine ⟨by rw [hexec], ?_, ?_, ?_, ?_⟩
    · intro uid b hmem
      rcases hshape _ hmem with h | h | h <;> simp at h
    · intro c f hmem
      rcases hshape _ hmem with h | h | h <;> simp at h
    · intro c hmem
      rcases hshape _ hmem with h | h | h <;> simp at h
    · rw [hexec]
      simp only [List.mem_cons, List.mem_append, List.mem_singleton]
      tauto
  · intro db cache ty hmiss hd _
    exact hdefault db cache ty hmiss hd
  · intro db cache ty hmiss hd hnotfixed
    have := hdefault db cache ty hmiss hd
    rw [this]
    have hkey : getDefaultTemplate (some ty) = "Hola \x7bnombre\x7d, buenos días.\n" := by
      unfold getDefaultTemplate
      simp only [fixedCategories, List.mem_cons, List.not_mem_nil] at hnotfixed
      rw [if_neg (by tauto), if_neg (by tauto), if_neg (by tauto)]
    rw [hkey]

/-- Counterexample for C5 as frozen: for a category outside the fixed set
with no stored row, resolution does not fail — it returns the generic
default greeting. -/
theorem c5_counterexample :
    (getTemplateForJob (fun _ => none) [] "otro").outcome =
      Except.ok "Hola \x7bnombre\x7d, buenos días.\n" := by decide

/-- Witness for C5: a blank stored row fails resolution and aborts the job
before any recipient effect; a missing row for a fixed category yields its
built-in default. -/
theorem c5_witness :
    (getTemplateForJob (fun _ => some (some "   ")) [] "monotributo").outcome =
        Except.error (blankTemplateMsg "monotributo") ∧
      (executeJob envBlankTpl st0 job3).1 = Except.error (blankTemplateMsg "monotributo") ∧
      (getTemplateForJob (fun _ => none) [] "monotributo").outcome =
        Except.ok (getDefaultTemplate (some "monotributo")) :=
  ⟨c5_template_resolution.1 (fun _ => some (some "   ")) [] "monotributo" (some "   ")
      (by intro s hs; simp [List.lookup] at hs) rfl (Or.inr ⟨"   ", rfl, by decide⟩),
   (c5_template_resolution.2.1 envBlankTpl st0 job3 (some "  ") rfl rfl (by decide)
      (by decide) (by intro s hs; simp [List.lookup] at hs) rfl
      (Or.inr ⟨"  ", rfl, by decide⟩)).1,
   c5_template_resolution.2.2.1 (fun _ => none) [] "monotributo"
      (by intro s hs; simp [List.lookup] at hs) rfl (by decide)⟩

/-- Claim C7: rendering is deterministic literal substitution — the claim's
example template renders to "Hola Ana, vence 31/12"; a template carrying
neither name token gets the informal-name greeting prepended (shown both
structurally and on the example); and the "needs" trailers are appended
verbatim in the fixed papers → Z → purchases → audit order. -/
theorem c7_render_determinism :
    (∀ (msg : String) (u : VepUser),
        appendAdditionalMessages msg u = msg ++ strJoin (specTrailerList u)) ∧
    generateMessage ctx0 ana job3 "Hola \x7bnombre\x7d, vence \x7bcaducate\x7d" =
      "Hola Ana, vence 31/12" ∧
    (∀ (ctx : RenderCtx) (u : VepUser) (job : Job) (tmpl : String),
        jsIncludes tmpl "\x7bnombre\x7d" = false →
        jsIncludes tmpl "\x7balter_name\x7d" = false →
        generateMessage ctx u job tmpl =
          appendAdditionalMessages
            (replaceTemplateVariables ctx u job ("Hola \x7bnombre\x7d, " ++ tmpl)) u) ∧
    generateMessage ctx0 ana job3 "vence \x7bcaducate\x7d" = "Hola Ana, vence 31/12" ∧
    generateMessage ctx0 { ana with need_papers := true } job3
        "Hola \x7bnombre\x7d, vence \x7bcaducate\x7d" =
      "Hola Ana, vence 31/12" ++ papersTrailer := by
  refine ⟨?_, by decide, ?_, by decide, by decide⟩
  · intro msg u
    unfold appendAdditionalMessages specTrailerList
    cases hp : u.need_papers <;> cases hz : u.need_z <;> cases hc : u.need_compra <;>
      cases ha : u.need_auditoria <;>
      simp [strJoin, String.append_assoc, String.append_empty]
  · intro ctx u job tmpl h1 h2
    unfold generateMessage
    rw [if_pos (by simp [h1, h2])]

/-- Witness for C7's quantified parts: the trailer decomposition at a
papers-flagged recipient and the greeting prepend on a token-free
template. -/
theorem c7_witness :
    appendAdditionalMessages "x. " { ana with need_papers := true } =
        "x. " ++ strJoin (specTrailerList { ana with need_papers := true }) ∧
      generateMessage ctx0 ana job3 "buen día" =
        appendAdditionalMessages
          (replaceTemplateVariables ctx0 ana job3 ("Hola \x7bnombre\x7d, " ++ "buen día")) ana :=
  ⟨c7_render_determinism.1 "x. " { ana with need_papers := true },
   c7_render_determinism.2.2.1 ctx0 ana job3 "buen día" (by decide) (by decide)⟩

/-- Claim C4 (amended): the 5th consecutive recorded failure opens the
circuit for exactly the 5-minute cooldown; while open, a delivery attempt
through the guarded single-attachment path fails immediately with the
remaining-wait message, touching neither the network nor the gateway state;
`recordSuccess` (run on any successful guarded send, as the fourth part
shows) zeroes the failure counter and closes an open circuit.  The original
claim's "every delivery attempt" does not hold: the multi-attachment path
bypasses the breaker (see the counterexample). -/
theorem c4_circuit_breaker :
    (∀ (s : WAState) (now : Int), s.consecutiveFailures = 4 →
        recordFailure s now =
          { s with consecutiveFailures := 5, circuitOpen := true,
                   circuitOpenUntil := some (now + circuitCooldownMs) }) ∧
    (∀ (env : SendEnv) (s : WAState) (now u : Int) (text fn : String) (sz : Nat),
        s.circuitOpen = true → s.circuitOpenUntil = some u → u ≠ 0 → now < u →
        sendMessageVep env s now text fn sz =
          (Except.error (circuitOpenMsg u now), s, [])) ∧
    (∀ s : WAState, (recordSuccess s).consecutiveFailures = 0 ∧
        (recordSuccess s).circuitOpen = false) ∧
    (∀ (env : SendEnv) (s s1 : WAState) (now : Int) (text fn : String) (sz : Nat),
        checkCircuitBreaker s now = Except.ok s1 → sz ≤ MAX_FILE_SIZE →
        env.connTry 1 = true → env.netResult 1 = none →
        (sendMessageVep env s now text fn sz).2.1.consecutiveFailures = 0 ∧
          (sendMessageVep env s now text fn sz).2.1.circuitOpen = false) := by
  refine ⟨?_, ?_, ?_, ?_⟩
  · intro s now h
    simp [recordFailure, maxFailures, h]
  · intro env s now u text fn sz ho hu hne hlt
    have hcb : checkCircuitBreaker s now = Except.error (circuitOpenMsg u now) := by
      unfold checkCircuitBreaker
      simp [ho, hu, hne, hlt]
    simp [sendMessageVep, hcb]
  · intro s
    unfold recordSuccess
    split_ifs with h <;> simp_all
  · intro env s s1 now text fn sz hcb hsz hconn hnet
    have hstep : sendMessageVep env s now text fn sz =
        (Except.ok (), recordSuccess (checkRateLimit s1 now), [NetCall.mediaMsg]) := by
      unfold sendMessageVep
      rw [hcb]
      dsimp only
      rw [if_neg (show ¬ MAX_FILE_SIZE < sz from Nat.not_lt.mpr hsz)]
      unfold vepAttempts
      simp [hconn, hnet]
    rw [hstep]
    unfold recordSuccess
    split_ifs with h <;> simp_all

/-- Counterexample for C4 as frozen: with the circuit open, a
multi-attachment delivery attempt does not fail immediately — it performs
network calls and succeeds, bypassing the breaker. -/
theorem c4_counterexample :
    waOpen2.circuitOpen = true ∧
      sendMultipleFiles multiOkEnv waOpen2 "hola"
          [{ size := 700, fileName := "a.pdf", media := "document",
             mimetype := "application/pdf" }] =
        (Except.ok (), waOpen2, [NetCall.textMsg, NetCall.mediaMsg]) :=
  ⟨rfl, by decide⟩

/-- Witness for C4 at concrete states: the 5th failure opens for 5 minutes,
an attempt during the open window fails with the wait-time message and no
network call, and a success resets the counter. -/
theorem c4_witness :
    recordFailure wa4 100 =
        { consecutiveFailures := 5, circuitOpen := true,
          circuitOpenUntil := some (100 + circuitCooldownMs), messageTimestamps := [] } ∧
      sendMessageVep sendOkEnv waOpen 100 "t" "f.pdf" 5 =
        (Except.error (circuitOpenMsg 400000 100), waOpen, []) ∧
      (recordSuccess waOpen).consecutiveFailures = 0 ∧
      (recordSuccess waOpen).circuitOpen = false :=
  ⟨c4_circuit_breaker.1 wa4 100 rfl,
   c4_circuit_breaker.2.1 sendOkEnv waOpen 100 400000 "t" "f.pdf" 5 rfl rfl
      (by decide) (by decide),
   (c4_circuit_breaker.2.2.1 waOpen).1,
   (c4_circuit_breaker.2.2.1 waOpen).2⟩

/-- Claim C6 (amended): on the single-attachment path the circuit-breaker
check, the rate limiter and the 16 MiB size guard run in this order before
any network call — an open circuit aborts before the limiter mutates the
window, and an oversized attachment is rejected after the limiter but
before any send, recording exactly one breaker failure with no retry.  The
multi-attachment path applies none of the three protections: its outcome
and network activity are independent of the gateway state, which it
returns untouched (see the counterexample). -/
theorem c6_protections_order :
    (∀ (env : SendEnv) (s : WAState) (now u : Int) (text fn : String) (sz : Nat),
        s.circuitOpen = true → s.circuitOpenUntil = some u → u ≠ 0 → now < u →
        (sendMessageVep env s now text fn sz).1 = Except.error (circuitOpenMsg u now) ∧
          (sendMessageVep env s now text fn sz).2.1 = s ∧
          (sendMessageVep env s now text fn sz).2.2 = []) ∧
    (∀ (env : SendEnv) (s s1 : WAState) (now : Int) (text fn : String) (sz : Nat),
        checkCircuitBreaker s now = Except.ok s1 → MAX_FILE_SIZE < sz →
        sendMessageVep env s now text fn sz =
          (Except.error (oversizeMsg fn), recordFailure (checkRateLimit s1 now) now, [])) ∧
    (∀ (menv : MultiEnv) (s s' : WAState) (text : String) (files : List FileSpec),
        (sendMultipleFiles menv s text files).1 = (sendMultipleFiles menv s' text files).1 ∧
          (sendMultipleFiles menv s text files).2.2 =
            (sendMultipleFiles menv s' text files).2.2 ∧
          (sendMultipleFiles menv s text files).2.1 = s) := by
  refine ⟨?_, ?_, ?_⟩
  · intro env s now u text fn sz ho hu hne hlt
    have hcb : checkCircuitBreaker s now = Except.error (circuitOpenMsg u now) := by
      unfold checkCircuitBreaker
      simp [ho, hu, hne, hlt]
    simp [sendMessageVep, hcb]
  · intro env s s1 now text fn sz hcb hsz
    unfold sendMessageVep
    rw [hcb]
    dsimp only
    rw [if_pos hsz]
  · intro menv s s' text files
    unfold sendMultipleFiles
    by_cases ht : text = ""
    · simp [ht]
    · cases hres : menv.textResult <;> simp [ht, hres]

/-- Counterexample for C6 as frozen: on the multi-attachment path an open
circuit and a 17 MiB attachment stop nothing — network calls happen and
the call succeeds with no rejection. -/
theorem c6_counterexample :
    MAX_FILE_SIZE < bigDoc.size ∧ waOpen.circuitOpen = true ∧
      sendMultipleFiles multiOkEnv waOpen "documentos" [bigDoc] =
        (Except.ok (), waOpen, [NetCall.textMsg, NetCall.mediaMsg]) :=
  ⟨by decide, rfl, by decide⟩

/-- Witness for C6 at concrete inputs: the open-circuit rejection leaves
the state and trace empty, and the oversize rejection happens with no
network call after the limiter ran. -/
theorem c6_witness :
    (sendMessageVep sendOkEnv waOpen 100 "t" "f.pdf" 5).2.2 = [] ∧
      sendMessageVep sendOkEnv wa0 100 "t" "g.pdf" (MAX_FILE_SIZE + 1) =
        (Except.error (oversizeMsg "g.pdf"),
         recordFailure (checkRateLimit wa0 100) 100, []) :=
  ⟨(c6_protections_order.1 sendOkEnv waOpen 100 400000 "t" "f.pdf" 5 rfl rfl
      (by decide) (by decide)).2.2,
   c6_protections_order.2.1 sendOkEnv wa0 wa0 100 "t" "g.pdf" (MAX_FILE_SIZE + 1)
      (by decide) (by omega)⟩

/-- Claim C8 (amended): the storage fetches attachment resolution performs
are exactly the primary fetch (when the cuit is truthy) followed by one
fetch per linked user whose cuit differs from the primary's, in order — so
a linked user whose cuit equals the primary's triggers no additional fetch,
but linked users are not deduplicated among themselves (see the
counterexample); when every fetch fails, resolution fails with the message
listing the primary's cuit and the truthy linked cuits. -/
theorem c8_attachment_dedup_and_error :
    (∀ (env : Env) (s : WAState) (u : VepUser) (job : Job) (tmpl : String),
        ((sendMessageToUser env s u job tmpl).2.2).filter isFileFetch =
          expectedFetchEffs u (jsOrS job.folder_name "veps_default")) ∧
    (∀ (env : Env) (s : WAState) (u : VepUser) (job : Job) (tmpl : String),
        truthyOpt u.cuit = true → (∀ j ∈ u.joined_users, j.cuit = u.cuit) →
        ((sendMessageToUser env s u job tmpl).2.2).filter isFileFetch =
          [Eff.fileFetch u.cuit (jsOrS job.folder_name "veps_default")]) ∧
    (∀ (env : Env) (s : WAState) (u : VepUser) (job : Job) (tmpl : String),
        (∀ c f, env.fetchFile c f = none) →
        (sendMessageToUser env s u job tmpl).1 = Except.error (noFilesMsg u)) := by
  refine ⟨sendMessageToUser_fetch_trace, ?_, ?_⟩
  · intro env s u job tmpl htr hall
    rw [sendMessageToUser_fetch_trace]
    have hjoin : ∀ js : List JoinedUser, (∀ j ∈ js, j.cuit = u.cuit) →
        joinedFetchExpected (jsOrS job.folder_name "veps_default") u.cuit js = [] := by
      intro js
      induction js with
      | nil => intro _; rfl
      | cons j rest ih =>
        intro h
        unfold joinedFetchExpected
        rw [if_neg (by simpa using h j (by simp))]
        exact ih (fun j' hj' => h j' (List.mem_cons_of_mem j hj'))
    unfold expectedFetchEffs
    rw [hjoin u.joined_users hall, if_pos htr, List.append_nil]
  · intro env s u job tmpl hall
    unfold sendMessageToUser
    dsimp only
    rcases harch : (fetchArchives env u (jsOrS job.folder_name "veps_default")).1 with
      _ | ⟨a, rest⟩
    · rfl
    · have := fetchArchives_none env u (jsOrS job.folder_name "veps_default") hall
      rw [harch] at this
      cases this

/-- Counterexample for C8 as frozen: two linked users sharing the tax id
"20-2" (different from the primary's) trigger two storage fetches for that
id, not at most one. -/
theorem c8_counterexample :
    List.count (Eff.fileFetch (some "20-2") "veps_default")
        ((sendMessageToUser envAllFetchOk wa0 dupJoined jobDup "x").2.2) = 2 := by
  decide

/-- Witness for C8: a single-recipient fetch trace, the equal-cuit skip,
and the all-fetches-fail error with the attempted cuit list. -/
theorem c8_witness :
    ((sendMessageToUser envAllFetchOk wa0 ana job3 "x").2.2).filter isFileFetch =
        expectedFetchEffs ana "veps_junio" ∧
      ((sendMessageToUser envAllFetchOk wa0
            { ana with joined_users := [{ name := "Ana bis", cuit := some "27-1" }] }
            job3 "x").2.2).filter isFileFetch =
        [Eff.fileFetch (some "27-1") "veps_junio"] ∧
      (sendMessageToUser envClaimFail wa0 beto job3 "x").1 =
        Except.error (noFilesMsg beto) :=
  ⟨c8_attachment_dedup_and_error.1 envAllFetchOk wa0 ana job3 "x",
   c8_attachment_dedup_and_error.2.1 envAllFetchOk wa0
      { ana with joined_users := [{ name := "Ana bis", cuit := some "27-1" }] } job3 "x"
      (by decide) (by intro j hj; obtain rfl := List.mem_singleton.mp hj; rfl),
   c8_attachment_dedup_and_error.2.2 envClaimFail wa0 beto job3 "x" (fun _ _ => rfl)⟩

/-- Claim C3: in a claimed job with a resolved template, a recipient whose
delivery throws is recorded in the report as a failure with `sent: false`,
the loop continues through every remaining recipient, and the job is still
marked FINISHED with an `executed_at` timestamp — never ERROR. -/
theorem c3_partial_failure_isolation
    (env : Env) (st : SchedState) (job : Job) (tmpl e : String)
    (pre post : List VepUser) (u : VepUser)
    (hclaim : env.claimSucceeds = true) (hconn : env.connected = true)
    (hty : truthyOpt job.type = true)
    (htmpl : (getTemplateForJob env.db st.templateCache (jsOrS job.type "")).outcome =
      Except.ok tmpl)
    (hus : job.users = pre ++ u :: post)
    (hfail : (sendMessageToUser env (userLoop env job tmpl pre st.wa).2.1 u job tmpl).1 =
      Except.error e) :
    (∃ rsPre rsPost : List UserResult,
        (executeJob env st job).1 =
          Except.ok (some (rsPre ++
            { userId := u.id, userName := u.real_name, success := false,
              error := some e } :: rsPost)) ∧
          rsPre.length = pre.length ∧ rsPost.length = post.length) ∧
      Eff.sentUpdate job.id u.id false ∈ (executeJob env st job).2.2 ∧
      Eff.statusUpdate job.id JobStatus.FINISHED (some env.now) ∈ (executeJob env st job).2.2 ∧
      (∀ x, Eff.statusUpdate job.id JobStatus.ERROR x ∉ (executeJob env st job).2.2) := by
  have hne : job.users ≠ [] := by rw [hus]; simp
  have hproc := processJob_ok env st job tmpl hne hty htmpl
  have hexec := executeJob_ok env st job _ _ _ hclaim hconn hproc
  rcases hsm : sendMessageToUser env (userLoop env job tmpl pre st.wa).2.1 u job tmpl with
    ⟨r, s2, es⟩
  have hes := sendMessageToUser_effs_user env (userLoop env job tmpl pre st.wa).2.1 u job tmpl
  rw [hsm] at hes hfail
  obtain rfl : r = Except.error e := hfail
  have hcons : userLoop env job tmpl (u :: post) (userLoop env job tmpl pre st.wa).2.1 =
      ({ userId := u.id, userName := u.real_name, success := false, error := some e } ::
         (userLoop env job tmpl post s2).1,
       (userLoop env job tmpl post s2).2.1,
       es ++ [Eff.sentUpdate job.id u.id false] ++ (userLoop env job tmpl post s2).2.2) := by
    simp [userLoop, hsm]
  have hsplit := userLoop_append env job tmpl pre (u :: post) st.wa
  rw [hcons] at hsplit
  rw [← hus] at hsplit
  rw [hsplit] at hexec
  dsimp only at hexec
  refine ⟨⟨(userLoop env job tmpl pre st.wa).1, (userLoop env job tmpl post s2).1,
      by rw [hexec], userLoop_length env job tmpl pre st.wa,
      userLoop_length env job tmpl post s2⟩, ?_, ?_, ?_⟩
  · rw [hexec]
    simp
  · rw [hexec]
    simp
  · intro x hx
    rw [hexec] at hx
    rcases List.mem_cons.mp hx with hc | hx
    · exact absurd hc (by simp)
    rcases List.mem_append.mp hx with hx | hf
    swap
    · exact absurd (List.mem_singleton.mp hf) (by simp)
    rcases List.mem_append.mp hx with ht | hx
    · revert ht
      split_ifs <;> simp
    rcases List.mem_append.mp hx with hp | hx
    · have := userLoop_effs_user env job tmpl pre st.wa _ hp
      simp [isUserEff] at this
    rcases List.mem_append.mp hx with hx | hpost
    swap
    · have := userLoop_effs_user env job tmpl post s2 _ hpost
      simp [isUserEff] at this
    rcases List.mem_append.mp hx with hes2 | hsent
    · have := hes _ hes2
      simp [isUserEff] at this
    · exact absurd (List.mem_singleton.mp hsent) (by simp)

/-- Witness for C3: in the three-recipient run where the middle recipient's
attachment fetch fails, the job finishes FINISHED with that recipient
recorded `sent: false` and the other two processed. -/
theorem c3_witness :
    (∃ rsPre rsPost : List UserResult,
        (executeJob envPartial st0 job3).1 =
          Except.ok (some (rsPre ++
            { userId := 12, userName := "Beto Díaz", success := false,
              error := some (noFilesMsg beto) } :: rsPost)) ∧
          rsPre.length = 1 ∧ rsPost.length = 1) ∧
      Eff.sentUpdate 2 12 false ∈ (executeJob envPartial st0 job3).2.2 ∧
      Eff.statusUpdate 2 JobStatus.FINISHED (some 555) ∈ (executeJob envPartial st0 job3).2.2 ∧
      (∀ x, Eff.statusUpdate 2 JobStatus.ERROR x ∉ (executeJob envPartial st0 job3).2.2) :=
  c3_partial_failure_isolation envPartial st0 job3
    "Hola \x7bnombre\x7d, vence \x7bcaducate\x7d" (noFilesMsg beto) [ana] [cira] beto
    rfl rfl (by decide) (by decide) rfl (by decide)

/-- Claim C10: on the multi-attachment path a per-document send error is
caught inside the loop and never surfaces — the call succeeds and leaves
the gateway state untouched whenever the leading text send does not throw,
with exactly one unguarded network call per document; consequently a
recipient whose multi-document delivery "succeeded" this way is recorded
`sent: true` by the recipient loop. -/
theorem c10_multi_path_error_swallowing :
    (∀ (menv : MultiEnv) (s : WAState) (text : String) (files : List FileSpec),
        (text = "" ∨ menv.textResult = none) →
        (sendMultipleFiles menv s text files).1 = Except.ok () ∧
          (sendMultipleFiles menv s text files).2.1 = s) ∧
    (∀ (menv : MultiEnv) (files : List FileSpec) (i : Nat),
        (∀ f ∈ files, f.media = "document") →
        multiFileCalls menv files i = files.map (fun _ => NetCall.mediaMsg)) ∧
    (∀ (env : Env) (job : Job) (tmpl : String) (u : VepUser) (rest : List VepUser)
        (s : WAState),
        (sendMessageToUser env s u job tmpl).1 = Except.ok () →
        Eff.sentUpdate job.id u.id true ∈ (userLoop env job tmpl (u :: rest) s).2.2) ∧
    (∀ (env : Env) (s : WAState) (u : VepUser) (job : Job) (tmpl : String)
        (a b : Nat) (j : JoinedUser),
        truthyOpt u.cuit = true →
        env.fetchFile u.cuit (jsOrS job.folder_name "veps_default") = some a →
        u.joined_users = [j] → j.cuit ≠ u.cuit →
        env.fetchFile j.cuit (jsOrS job.folder_name "veps_default") = some b →
        (env.multiEnvOf u.id).textResult = none →
        (sendMessageToUser env s u job tmpl).1 = Except.ok () ∧
          (sendMessageToUser env s u job tmpl).2.1 = s) := by
  refine ⟨?_, ?_, ?_, ?_⟩
  · intro menv s text files h
    unfold sendMultipleFiles
    by_cases ht : text = ""
    · simp [ht]
    · have hres : menv.textResult = none := h.resolve_left ht
      simp [ht, hres]
  · intro menv files
    induction files with
    | nil => intro i _; rfl
    | cons f rest ih =>
      intro i h
      have hf := h f (by simp)
      simp [multiFileCalls, hf, ih (i + 1) (fun f' hf' => h f' (List.mem_cons_of_mem f hf'))]
  · intro env job tmpl u rest s hok
    rcases hsm : sendMessageToUser env s u job tmpl with ⟨r, s', es⟩
    rw [hsm] at hok
    obtain rfl : r = Except.ok () := hok
    simp [userLoop, hsm]
  · intro env s u job tmpl a b j htr hprim hj hne hjf htext
    have hfa : fetchArchives env u (jsOrS job.folder_name "veps_default") =
        ([a, b],
         [Eff.fileFetch u.cuit (jsOrS job.folder_name "veps_default"),
          Eff.fileFetch j.cuit (jsOrS job.folder_name "veps_default")]) := by
      unfold fetchArchives
      rw [hj]
      simp [joinedFetchPass, htr, hprim, hne, hjf]
    unfold sendMessageToUser
    dsimp only
    rw [hfa]
    dsimp only
    unfold sendMultipleDocuments sendMultipleFiles
    by_cases hm : generateMessage env.ctx u job tmpl = "" <;>
      simp [hm, htext]

/-- Witness for C10: every document send fails, yet the delivery returns
successfully, the state is untouched, and the recipient is recorded
`sent: true`. -/
theorem c10_witness :
    (sendMessageToUser envMultiFail wa0 elsa jobDup "x").1 = Except.ok () ∧
      (sendMessageToUser envMultiFail wa0 elsa jobDup "x").2.1 = wa0 ∧
      Eff.sentUpdate 3 31 true ∈ (userLoop envMultiFail jobDup "x" [elsa] wa0).2.2 := by
  have h4 := c10_multi_path_error_swallowing.2.2.2 envMultiFail wa0 elsa jobDup "x"
    700 700 { name := "Fede", cuit := some "20-6" } rfl rfl rfl (by decide) rfl rfl
  exact ⟨h4.1,
    h4.2,
    c10_multi_path_error_swallowing.2.2.1 envMultiFail jobDup "x" elsa [] wa0 h4.1⟩

end VepsSender
